import Mathlib

/-!
Shallow embedding of the book-management REST service
(`controllers/book_controller.go`, `models/book.go`,
`Core/Books/database/database.go`).

The `books` table is modelled as a list of rows together with the
AUTO_INCREMENT counter of the `id` column.  Each HTTP handler becomes a
pure function from the request data (path parameter string, decoded
body) and the store state to an `HResult` holding the HTTP status, the
response body and the state after the statement executed.  JSON bodies
are modelled by a small `Json` type; a Go slice is modelled as
`Option (List Book)` so that the `nil`-slice-encodes-to-`null`
behaviour of `encoding/json` is visible.
-/

namespace BookApi

/-- `models.Book` from `models/book.go`: ID, Title, Author, Year. -/
structure Book where
  id : Int
  title : String
  author : String
  year : Int
deriving Repr, DecidableEq

/-- The `books` table plus the AUTO_INCREMENT counter for `id`.
MySQL assigns `nextId` to a freshly inserted row and then bumps the
counter; deleted ids are not reused. -/
structure DBState where
  rows : List Book
  nextId : Int
deriving Repr, DecidableEq

/-- The state right after `database.InitDB` created the empty table:
no rows, AUTO_INCREMENT starts at 1. -/
def initDB : DBState := { rows := [], nextId := 1 }

/-- Minimal JSON value model, enough to distinguish `null` from `[]`
and to render a `Book` object. -/
inductive Json where
  | null : Json
  | num (n : Int) : Json
  | str (s : String) : Json
  | arr (xs : List Json) : Json
  | obj (fields : List (String × Json)) : Json
deriving Repr

/-- JSON object produced by `json.NewEncoder(w).Encode(book)` with the
struct tags of `models.Book`. -/
def Book.toJson (b : Book) : Json :=
  Json.obj [("id", Json.num b.id), ("title", Json.str b.title),
            ("author", Json.str b.author), ("year", Json.num b.year)]

/-- `encoding/json` on a `[]models.Book` slice: a `nil` slice encodes
to `null`, a non-`nil` slice (even empty) to a JSON array. -/
def encodeBookSlice : Option (List Book) → Json
  | none => Json.null
  | some bs => Json.arr (bs.map Book.toJson)

/-- A response body: either plain text written by `http.Error` or a
JSON value written by `json.NewEncoder`. -/
inductive Body where
  | text (s : String) : Body
  | json (j : Json) : Body
deriving Repr

/-- The observable outcome of one handler call: HTTP status code,
response body, and the store state afterwards. -/
structure HResult where
  status : Nat
  body : Body
  db : DBState
deriving Repr

/-- `strconv.Atoi`: optional sign followed by at least one decimal
digit, rejecting anything else and values outside the 64-bit `int`
range (on overflow `Atoi` returns a non-nil error, which the handlers
turn into 400). -/
def Atoi (s : String) : Option Int :=
  match s.data with
  | [] => none
  | c :: rest =>
    let (neg, ds) :=
      if c = '-' then (true, rest)
      else if c = '+' then (false, rest)
      else (false, c :: rest)
    match ds with
    | [] => none
    | _ :: _ =>
      if ds.all Char.isDigit then
        let n : Nat := ds.foldl (fun a d => a * 10 + (d.toNat - 48)) 0
        let v : Int := if neg then -(n : Int) else (n : Int)
        if -(2 ^ 63) ≤ v ∧ v < 2 ^ 63 then some v else none
      else none

/-- `GetBooks`: `SELECT id, title, author, YEAR FROM books`, scanned
into `books := []models.Book{}` (non-nil), then encoded.  Always 200
on the modelled success path; the state is untouched. -/
def GetBooks (db : DBState) : HResult :=
  let books : Option (List Book) :=
    some (db.rows.foldl (fun acc b => acc ++ [b]) [])
  { status := 200, body := Body.json (encodeBookSlice books), db := db }

/-- `GetBook`: parse the path id with `strconv.Atoi` (400 on error),
`SELECT ... WHERE id = ?` (404 when `sql.ErrNoRows`), else 200 with
the scanned book. -/
def GetBook (db : DBState) (idParam : String) : HResult :=
  match Atoi idParam with
  | none => { status := 400, body := Body.text "Invalid book ID", db := db }
  | some id =>
    match db.rows.find? (fun b => b.id == id) with
    | none => { status := 404, body := Body.text "Book not found", db := db }
    | some book => { status := 200, body := Body.json book.toJson, db := db }

/-- `CreateBook`: decode the body (400 when malformed, modelled by
`none`), reject empty Title/Author or zero Year with 400, else
`INSERT INTO books (title, author, year)`, set `book.ID` from
`LastInsertId`, and answer 201 with the created record. -/
def CreateBook (db : DBState) (body : Option Book) : HResult :=
  match body with
  | none =>
    { status := 400, body := Body.text "Invalid request body", db := db }
  | some book =>
    if book.title = "" ∨ book.author = "" ∨ book.year = 0 then
      { status := 400,
        body := Body.text "Invalid request body: Title, Author, and Year are required",
        db := db }
    else
      let created : Book :=
        { id := db.nextId, title := book.title,
          author := book.author, year := book.year }
      { status := 201, body := Body.json created.toJson,
        db := { rows := db.rows ++ [created], nextId := db.nextId + 1 } }

/-- `UpdateBook`: parse the path id (400 on error), decode and
validate the body (400), run
`UPDATE books SET title = ?, author = ?, year = ? WHERE id = ?`,
then 404 when `RowsAffected` is zero, else 200 with the updated
record whose ID is taken from the path.  The DSN built in
`database.InitDB` does not set `clientFoundRows`, so
`result.RowsAffected()` reports the rows MySQL *changed*: a matched
row counts only when at least one of the three SET columns receives
a value different from the stored one. -/
def UpdateBook (db : DBState) (idParam : String) (body : Option Book) : HResult :=
  match Atoi idParam with
  | none => { status := 400, body := Body.text "Invalid book ID", db := db }
  | some id =>
    match body with
    | none =>
      { status := 400, body := Body.text "Invalid request body", db := db }
    | some ub =>
      if ub.title = "" ∨ ub.author = "" ∨ ub.year = 0 then
        { status := 400,
          body := Body.text "Invalid request body: Title, Author, and Year are required",
          db := db }
      else
        let affected := (db.rows.filter (fun b => b.id == id &&
          !(b.title == ub.title && b.author == ub.author && b.year == ub.year))).length
        let newRows := db.rows.map (fun b =>
          if b.id == id then
            { b with title := ub.title, author := ub.author, year := ub.year }
          else b)
        let db2 : DBState := { rows := newRows, nextId := db.nextId }
        if affected = 0 then
          { status := 404, body := Body.text "Book not found", db := db2 }
        else
          { status := 200,
            body := Body.json (Book.toJson
              { id := id, title := ub.title, author := ub.author, year := ub.year }),
            db := db2 }

/-- `DeleteBook`: parse the path id (400 on error), run
`DELETE FROM books WHERE id = ?`, then 404 when `RowsAffected` is
zero, else 200 with a confirmation message object. -/
def DeleteBook (db : DBState) (idParam : String) : HResult :=
  match Atoi idParam with
  | none => { status := 400, body := Body.text "Invalid book ID", db := db }
  | some id =>
    let remaining := db.rows.filter (fun b => !(b.id == id))
    let affected := db.rows.length - remaining.length
    let db2 : DBState := { rows := remaining, nextId := db.nextId }
    if affected = 0 then
      { status := 404, body := Body.text "Book not found", db := db2 }
    else
      { status := 200,
        body := Body.json (Json.obj [("message", Json.str "Book deleted successfully")]),
        db := db2 }

/-- Well-formedness the real store guarantees: every stored id is
below the AUTO_INCREMENT counter, and ids are pairwise distinct
(`id` is the primary key). -/
def WF (db : DBState) : Prop :=
  (∀ b ∈ db.rows, b.id < db.nextId) ∧
  db.rows.Pairwise (fun a b => a.id ≠ b.id)

/-- Boundary invariant of section 3 of the spec: every persisted book
has a non-empty title, a non-empty author and a non-zero year. -/
def ValidRows (db : DBState) : Prop :=
  ∀ b ∈ db.rows, b.title ≠ "" ∧ b.author ≠ "" ∧ b.year ≠ 0

/-! ## Helper lemmas -/

theorem foldl_append_singleton (l acc : List Book) :
    l.foldl (fun a b => a ++ [b]) acc = acc ++ l := by
  induction l generalizing acc with
  | nil => simp
  | cons hd tl ih => simp [List.foldl_cons, ih]

theorem GetBooks_db_eq (db : DBState) : (GetBooks db).db = db := rfl

theorem GetBook_db_eq (db : DBState) (s : String) : (GetBook db s).db = db := by
  unfold GetBook
  split
  · rfl
  · split <;> rfl

theorem map_eq_self_of_fixed (l : List Book) (f : Book → Book)
    (h : ∀ r ∈ l, f r = r) : l.map f = l := by
  induction l with
  | nil => rfl
  | cons hd tl ih =>
    rw [List.map_cons, h hd (List.mem_cons_self hd tl),
        ih (fun r hr => h r (List.mem_cons_of_mem hd hr))]

theorem find?_of_pairwise_ne (l : List Book) (id : Int) (b : Book)
    (hp : l.Pairwise (fun a c => a.id ≠ c.id)) (hb : b ∈ l) (hid : b.id = id) :
    l.find? (fun a => a.id == id) = some b := by
  induction l with
  | nil => cases hb
  | cons hd tl ih =>
    rcases List.mem_cons.mp hb with hb | hb
    · subst hb
      have hbeq : (b.id == id) = true := beq_iff_eq.mpr hid
      simp [List.find?_cons, hbeq]
    · have hne : hd.id ≠ id := fun he =>
        (List.pairwise_cons.mp hp).1 b hb (he.trans hid.symm)
      have hbeq : (hd.id == id) = false := beq_eq_false_iff_ne.mpr hne
      simp only [List.find?_cons, hbeq]
      exact ih (List.pairwise_cons.mp hp).2 hb

theorem find?_append_of_none (l1 l2 : List Book) (p : Book → Bool)
    (h : ∀ a ∈ l1, p a = false) :
    (l1 ++ l2).find? p = l2.find? p := by
  induction l1 with
  | nil => rfl
  | cons hd tl ih =>
    simp only [List.cons_append, List.find?_cons,
      h hd (List.mem_cons_self hd tl)]
    exact ih (fun a ha => h a (List.mem_cons_of_mem hd ha))

theorem filter_eq_self_of_all (l : List Book) (p : Book → Bool)
    (h : ∀ a ∈ l, p a = true) : l.filter p = l := by
  induction l with
  | nil => rfl
  | cons hd tl ih =>
    rw [List.filter_cons_of_pos (h hd (List.mem_cons_self hd tl)),
        ih (fun a ha => h a (List.mem_cons_of_mem hd ha))]

theorem GetBook_eq_of_atoi_none (db : DBState) (s : String)
    (hA : Atoi s = none) :
    GetBook db s = { status := 400, body := Body.text "Invalid book ID", db := db } := by
  unfold GetBook
  rw [hA]

theorem GetBook_eq_of_atoi_some (db : DBState) (s : String) (id : Int)
    (hA : Atoi s = some id) :
    GetBook db s =
      match db.rows.find? (fun b => b.id == id) with
      | none => { status := 404, body := Body.text "Book not found", db := db }
      | some book => { status := 200, body := Body.json book.toJson, db := db } := by
  unfold GetBook
  rw [hA]

theorem CreateBook_eq_of_valid (db : DBState) (b : Book)
    (hb : ¬(b.title = "" ∨ b.author = "" ∨ b.year = 0)) :
    CreateBook db (some b) =
      { status := 201,
        body := Body.json (Book.toJson
          { id := db.nextId, title := b.title, author := b.author, year := b.year }),
        db :=
          { rows := db.rows ++
              [{ id := db.nextId, title := b.title, author := b.author, year := b.year }],
            nextId := db.nextId + 1 } } := by
  unfold CreateBook
  dsimp only
  rw [if_neg hb]

theorem UpdateBook_eq_of_valid (db : DBState) (s : String) (id : Int) (ub : Book)
    (hA : Atoi s = some id) (hb : ¬(ub.title = "" ∨ ub.author = "" ∨ ub.year = 0)) :
    UpdateBook db s (some ub) =
      (if (db.rows.filter (fun b => b.id == id &&
          !(b.title == ub.title && b.author == ub.author && b.year == ub.year))).length = 0 then
        { status := 404, body := Body.text "Book not found",
          db :=
            { rows := db.rows.map (fun b => if b.id == id then
                { b with title := ub.title, author := ub.author, year := ub.year } else b),
              nextId := db.nextId } }
      else
        { status := 200,
          body := Body.json (Book.toJson
            { id := id, title := ub.title, author := ub.author, year := ub.year }),
          db :=
            { rows := db.rows.map (fun b => if b.id == id then
                { b with title := ub.title, author := ub.author, year := ub.year } else b),
              nextId := db.nextId } }) := by
  unfold UpdateBook
  rw [hA]
  dsimp only
  rw [if_neg hb]

theorem UpdateBook_eq_of_atoi_none (db : DBState) (s : String) (body : Option Book)
    (hA : Atoi s = none) :
    UpdateBook db s body =
      { status := 400, body := Body.text "Invalid book ID", db := db } := by
  unfold UpdateBook
  rw [hA]

theorem DeleteBook_eq_of_atoi_some (db : DBState) (s : String) (id : Int)
    (hA : Atoi s = some id) :
    DeleteBook db s =
      (if db.rows.length - (db.rows.filter (fun b => !(b.id == id))).length = 0 then
        { status := 404, body := Body.text "Book not found",
          db := { rows := db.rows.filter (fun b => !(b.id == id)), nextId := db.nextId } }
      else
        { status := 200,
          body := Body.json (Json.obj [("message", Json.str "Book deleted successfully")]),
          db := { rows := db.rows.filter (fun b => !(b.id == id)), nextId := db.nextId } }) := by
  unfold DeleteBook
  rw [hA]

theorem DeleteBook_eq_of_atoi_none (db : DBState) (s : String)
    (hA : Atoi s = none) :
    DeleteBook db s =
      { status := 400, body := Body.text "Invalid book ID", db := db } := by
  unfold DeleteBook
  rw [hA]

theorem CreateBook_eq_of_invalid (db : DBState) (b : Book)
    (hb : b.title = "" ∨ b.author = "" ∨ b.year = 0) :
    CreateBook db (some b) =
      { status := 400,
        body := Body.text "Invalid request body: Title, Author, and Year are required",
        db := db } := by
  unfold CreateBook
  dsimp only
  rw [if_pos hb]

theorem UpdateBook_eq_of_invalid (db : DBState) (s : String) (id : Int) (ub : Book)
    (hA : Atoi s = some id) (hb : ub.title = "" ∨ ub.author = "" ∨ ub.year = 0) :
    UpdateBook db s (some ub) =
      { status := 400,
        body := Body.text "Invalid request body: Title, Author, and Year are required",
        db := db } := by
  unfold UpdateBook
  rw [hA]
  dsimp only
  rw [if_pos hb]

theorem UpdateBook_eq_of_body_none (db : DBState) (s : String) (id : Int)
    (hA : Atoi s = some id) :
    UpdateBook db s none =
      { status := 400, body := Body.text "Invalid request body", db := db } := by
  unfold UpdateBook
  rw [hA]

/-- A one-row store used to instantiate theorems with hypotheses. -/
def sampleBook : Book := { id := 1, title := "Dune", author := "Herbert", year := 1965 }

/-- Store holding exactly `sampleBook`, next AUTO_INCREMENT value 2. -/
def sampleDB : DBState := { rows := [sampleBook], nextId := 2 }

/-- A valid request body used to instantiate create/update theorems. -/
def sampleReq : Book := { id := 0, title := "Dune", author := "Herbert", year := 1966 }

/-- A valid request body carrying exactly the stored values of
`sampleBook`: an update with it changes no column. -/
def noopReq : Book := { id := 0, title := "Dune", author := "Herbert", year := 1965 }

theorem WF_initDB : WF initDB :=
  ⟨fun r hr => absurd hr (List.not_mem_nil r), List.Pairwise.nil⟩

theorem WF_sampleDB : WF sampleDB :=
  ⟨fun r hr => by
      rcases List.mem_singleton.mp hr with rfl
      decide,
    List.Pairwise.cons (fun b hb => absurd hb (List.not_mem_nil b)) List.Pairwise.nil⟩

theorem ValidRows_sampleDB : ValidRows sampleDB := by
  intro r hr
  rcases List.mem_singleton.mp hr with rfl
  refine ⟨by decide, by decide, by decide⟩

/-! ## Claims -/

/-- C2: the boundary invariant — non-empty title, non-empty author and
non-zero year on every persisted row — holds after each of the five
handlers whenever it held before, for any request data. -/
theorem persisted_rows_stay_valid (db : DBState) (s : String) (body : Option Book)
    (hv : ValidRows db) :
    ValidRows (GetBooks db).db ∧ ValidRows (GetBook db s).db ∧
    ValidRows (CreateBook db body).db ∧ ValidRows (UpdateBook db s body).db ∧
    ValidRows (DeleteBook db s).db := by
  refine ⟨hv, ?_, ?_, ?_, ?_⟩
  · rw [GetBook_db_eq]
    exact hv
  · cases body with
    | none => exact hv
    | some b =>
      by_cases hb : b.title = "" ∨ b.author = "" ∨ b.year = 0
      · rw [CreateBook_eq_of_invalid db b hb]
        exact hv
      · rw [CreateBook_eq_of_valid db b hb]
        push_neg at hb
        intro r hr
        rcases List.mem_append.mp hr with hr | hr
        · exact hv r hr
        · rcases List.mem_singleton.mp hr with rfl
          exact ⟨hb.1, hb.2.1, hb.2.2⟩
  · cases hA : Atoi s with
    | none =>
      rw [UpdateBook_eq_of_atoi_none db s body hA]
      exact hv
    | some id =>
      cases body with
      | none =>
        rw [UpdateBook_eq_of_body_none db s id hA]
        exact hv
      | some ub =>
        by_cases hb : ub.title = "" ∨ ub.author = "" ∨ ub.year = 0
        · rw [UpdateBook_eq_of_invalid db s id ub hA hb]
          exact hv
        · rw [UpdateBook_eq_of_valid db s id ub hA hb]
          push_neg at hb
          split <;>
          · intro r hr
            obtain ⟨q, hq, rfl⟩ := List.mem_map.mp hr
            by_cases h : (q.id == id) = true
            · rw [if_pos h]
              exact ⟨hb.1, hb.2.1, hb.2.2⟩
            · rw [if_neg h]
              exact hv q hq
  · cases hA : Atoi s with
    | none =>
      rw [DeleteBook_eq_of_atoi_none db s hA]
      exact hv
    | some id =>
      rw [DeleteBook_eq_of_atoi_some db s id hA]
      split <;>
      · intro r hr
        exact hv r (List.mem_of_mem_filter hr)

/-- C2 witness at the one-row valid store and a concrete request. -/
theorem persisted_rows_stay_valid_witness :
    ValidRows (GetBooks sampleDB).db ∧ ValidRows (GetBook sampleDB "1").db ∧
    ValidRows (CreateBook sampleDB (some sampleReq)).db ∧
    ValidRows (UpdateBook sampleDB "1" (some sampleReq)).db ∧
    ValidRows (DeleteBook sampleDB "1").db :=
  persisted_rows_stay_valid sampleDB "1" (some sampleReq) ValidRows_sampleDB

/-- C3: a create or update whose decoded body has an empty title, an
empty author or a zero year answers 400 and leaves the store
untouched: no row inserted, no row modified. -/
theorem invalid_body_rejected_400 (db : DBState) (b : Book) (s : String)
    (h : b.title = "" ∨ b.author = "" ∨ b.year = 0) :
    (CreateBook db (some b)).status = 400 ∧ (CreateBook db (some b)).db = db ∧
    (UpdateBook db s (some b)).status = 400 ∧ (UpdateBook db s (some b)).db = db := by
  refine ⟨?_, ?_, ?_, ?_⟩ <;>
    · cases hA : Atoi s <;> simp [CreateBook, UpdateBook, hA, h]

/-- C3 witness at a concrete invalid body (empty title). -/
theorem invalid_body_rejected_400_witness :
    (CreateBook initDB (some { id := 0, title := "", author := "A", year := 1 })).status = 400 ∧
    (CreateBook initDB (some { id := 0, title := "", author := "A", year := 1 })).db = initDB ∧
    (UpdateBook initDB "1" (some { id := 0, title := "", author := "A", year := 1 })).status = 400 ∧
    (UpdateBook initDB "1" (some { id := 0, title := "", author := "A", year := 1 })).db = initDB :=
  invalid_body_rejected_400 initDB { id := 0, title := "", author := "A", year := 1 } "1"
    (Or.inl rfl)

/-- C4: get-by-id answers 400 when the path id does not parse as an
integer, 404 when it parses but no row carries that id, and 200 with
the JSON object of the row when one does. -/
theorem get_book_trichotomy (db : DBState) (s : String) :
    (Atoi s = none → (GetBook db s).status = 400) ∧
    (∀ id : Int, Atoi s = some id → (∀ r ∈ db.rows, r.id ≠ id) →
      (GetBook db s).status = 404) ∧
    (∀ id : Int, ∀ b : Book, Atoi s = some id →
      db.rows.Pairwise (fun a c => a.id ≠ c.id) → b ∈ db.rows → b.id = id →
      (GetBook db s).status = 200 ∧ (GetBook db s).body = Body.json b.toJson) := by
  refine ⟨?_, ?_, ?_⟩
  · intro hA
    rw [GetBook_eq_of_atoi_none db s hA]
  · intro id hA habs
    have hfind : db.rows.find? (fun b => b.id == id) = none := by
      rw [List.find?_eq_none]
      intro a ha hbe
      exact habs a ha (beq_iff_eq.mp hbe)
    rw [GetBook_eq_of_atoi_some db s id hA, hfind]
  · intro id b hA hp hb hid
    rw [GetBook_eq_of_atoi_some db s id hA,
        find?_of_pairwise_ne db.rows id b hp hb hid]
    exact ⟨rfl, rfl⟩

/-- C4 witness: a malformed id, a missing id and a present id on the
one-row store. -/
theorem get_book_trichotomy_witness :
    (GetBook sampleDB "abc").status = 400 ∧
    (GetBook sampleDB "99").status = 404 ∧
    (GetBook sampleDB "1").status = 200 ∧
    (GetBook sampleDB "1").body = Body.json sampleBook.toJson := by
  refine ⟨?_, ?_, ?_, ?_⟩
  · exact (get_book_trichotomy sampleDB "abc").1 (by decide)
  · refine (get_book_trichotomy sampleDB "99").2.1 99 (by decide) ?_
    intro r hr
    rcases List.mem_singleton.mp hr with rfl
    decide
  · exact ((get_book_trichotomy sampleDB "1").2.2 1 sampleBook (by decide)
      WF_sampleDB.2 (List.mem_singleton.mpr rfl) (by decide)).1
  · exact ((get_book_trichotomy sampleDB "1").2.2 1 sampleBook (by decide)
      WF_sampleDB.2 (List.mem_singleton.mpr rfl) (by decide)).2

/-- C8: list always answers 200 with a JSON array holding one object
per stored row, and on the empty store the body is the empty JSON
array and not JSON null. -/
theorem list_books_complete (db : DBState) :
    (GetBooks db).status = 200 ∧
    (GetBooks db).body = Body.json (Json.arr (db.rows.map Book.toJson)) ∧
    (db.rows = [] →
      (GetBooks db).body = Body.json (Json.arr []) ∧ Json.arr [] ≠ Json.null) := by
  have hbody : (GetBooks db).body =
      Body.json (Json.arr (db.rows.map Book.toJson)) := by
    unfold GetBooks
    dsimp only
    rw [foldl_append_singleton, List.nil_append]
    rfl
  refine ⟨rfl, hbody, ?_⟩
  intro h
  refine ⟨?_, ?_⟩
  · rw [hbody, h]
    rfl
  · intro hcon
    cases hcon

/-- C8 witness at the empty store. -/
theorem list_books_complete_witness :
    (GetBooks initDB).status = 200 ∧
    (GetBooks initDB).body = Body.json (Json.arr []) ∧
    Json.arr [] ≠ Json.null := by
  obtain ⟨h1, _, h3⟩ := list_books_complete initDB
  exact ⟨h1, (h3 rfl).1, (h3 rfl).2⟩

/-- C1: a valid create answers 201 with the store-assigned id
`db.nextId`, which no existing row carries, and an immediately
following get-by-id whose path parameter parses to that id answers
200 with a book carrying exactly the submitted title, author and
year. -/
theorem create_then_get_roundtrip (db : DBState) (b : Book) (s : String)
    (hWF : WF db)
    (hv : b.title ≠ "" ∧ b.author ≠ "" ∧ b.year ≠ 0)
    (hs : Atoi s = some db.nextId) :
    (CreateBook db (some b)).status = 201 ∧
    (∀ r ∈ db.rows, r.id ≠ db.nextId) ∧
    (GetBook (CreateBook db (some b)).db s).status = 200 ∧
    (GetBook (CreateBook db (some b)).db s).body =
      Body.json (Book.toJson
        { id := db.nextId, title := b.title, author := b.author, year := b.year }) := by
  have hb : ¬(b.title = "" ∨ b.author = "" ∨ b.year = 0) := by
    push_neg
    exact hv
  have hfresh : ∀ r ∈ db.rows, r.id ≠ db.nextId :=
    fun r hr => Int.ne_of_lt (hWF.1 r hr)
  have hfind : List.find? (fun r => r.id == db.nextId)
      (db.rows ++ [Book.mk db.nextId b.title b.author b.year]) =
      some (Book.mk db.nextId b.title b.author b.year) := by
    rw [find?_append_of_none _ _ _
      (fun a ha => beq_eq_false_iff_ne.mpr (hfresh a ha))]
    simp [List.find?_cons]
  rw [CreateBook_eq_of_valid db b hb]
  refine ⟨rfl, hfresh, ?_, ?_⟩
  · rw [GetBook_eq_of_atoi_some _ s db.nextId hs]
    dsimp only
    rw [hfind]
  · rw [GetBook_eq_of_atoi_some _ s db.nextId hs]
    dsimp only
    rw [hfind]

/-- C1 witness: create on the empty store, then get-by-id at "1". -/
theorem create_then_get_roundtrip_witness :
    (CreateBook initDB (some sampleReq)).status = 201 ∧
    (∀ r ∈ initDB.rows, r.id ≠ initDB.nextId) ∧
    (GetBook (CreateBook initDB (some sampleReq)).db "1").status = 200 ∧
    (GetBook (CreateBook initDB (some sampleReq)).db "1").body =
      Body.json (Book.toJson
        { id := initDB.nextId, title := sampleReq.title,
          author := sampleReq.author, year := sampleReq.year }) :=
  create_then_get_roundtrip initDB sampleReq "1" WF_initDB
    ⟨by decide, by decide, by decide⟩ (by decide)

/-- C5 counterexample: a no-op update of the existing id 1 — valid
body carrying exactly the stored title, author and year — is answered
with 404, not 200: MySQL reports zero changed rows even though a row
with the path id exists. -/
theorem update_noop_existing_404_counterexample :
    sampleBook ∈ sampleDB.rows ∧ sampleBook.id = 1 ∧ Atoi "1" = some 1 ∧
    noopReq.title ≠ "" ∧ noopReq.author ≠ "" ∧ noopReq.year ≠ 0 ∧
    noopReq.title = sampleBook.title ∧ noopReq.author = sampleBook.author ∧
    noopReq.year = sampleBook.year ∧
    (UpdateBook sampleDB "1" (some noopReq)).status = 404 ∧
    ¬(UpdateBook sampleDB "1" (some noopReq)).status = 200 := by
  refine ⟨by decide, by decide, by decide, by decide, by decide, by decide,
    by decide, by decide, by decide, by decide, by decide⟩

/-- C5 (amended): an update with a parsed path id and a valid body
answers 200 with the updated record whose id field is the path id
(the body id is ignored) when a row with that id exists whose title,
author or year differs from the body; when zero rows are changed —
no row carries the id, or the row already holds the submitted values
— it answers 404. -/
theorem update_changed_200 (db : DBState) (s : String) (id : Int) (ub : Book)
    (hA : Atoi s = some id)
    (hv : ub.title ≠ "" ∧ ub.author ≠ "" ∧ ub.year ≠ 0) :
    ((∃ r ∈ db.rows, r.id = id ∧
        (r.title ≠ ub.title ∨ r.author ≠ ub.author ∨ r.year ≠ ub.year)) →
      (UpdateBook db s (some ub)).status = 200 ∧
      (UpdateBook db s (some ub)).body = Body.json (Book.toJson
        { id := id, title := ub.title, author := ub.author, year := ub.year })) ∧
    ((∀ r ∈ db.rows, r.id = id →
        (r.title = ub.title ∧ r.author = ub.author ∧ r.year = ub.year)) →
      (UpdateBook db s (some ub)).status = 404) := by
  have hb : ¬(ub.title = "" ∨ ub.author = "" ∨ ub.year = 0) := by
    push_neg
    exact hv
  rw [UpdateBook_eq_of_valid db s id ub hA hb]
  constructor
  · rintro ⟨r, hr, hrid, hdiff⟩
    have hpr : (r.id == id &&
        !(r.title == ub.title && r.author == ub.author && r.year == ub.year)) = true := by
      rcases hdiff with h | h | h <;> simp [hrid, h]
    have hmem : r ∈ db.rows.filter (fun b => b.id == id &&
        !(b.title == ub.title && b.author == ub.author && b.year == ub.year)) :=
      List.mem_filter.mpr ⟨hr, hpr⟩
    have hlen : ¬(db.rows.filter (fun b => b.id == id &&
        !(b.title == ub.title && b.author == ub.author && b.year == ub.year))).length = 0 := by
      intro h0
      rw [List.length_eq_zero] at h0
      rw [h0] at hmem
      cases hmem
    rw [if_neg hlen]
    exact ⟨rfl, rfl⟩
  · intro hsame
    have hnil : db.rows.filter (fun b => b.id == id &&
        !(b.title == ub.title && b.author == ub.author && b.year == ub.year)) = [] := by
      rw [List.filter_eq_nil_iff]
      intro a ha hbe
      obtain ⟨h1, h2⟩ := Bool.and_eq_true_iff.mp hbe
      obtain ⟨e1, e2, e3⟩ := hsame a ha (beq_iff_eq.mp h1)
      simp [e1, e2, e3] at h2
    rw [hnil]
    simp

/-- C5 witness: update of id 1 with a changed year answers 200, and
update of the absent id 99 answers 404. -/
theorem update_changed_200_witness :
    (UpdateBook sampleDB "1" (some sampleReq)).status = 200 ∧
    (UpdateBook sampleDB "1" (some sampleReq)).body = Body.json (Book.toJson
      { id := 1, title := sampleReq.title, author := sampleReq.author,
        year := sampleReq.year }) ∧
    (UpdateBook sampleDB "99" (some sampleReq)).status = 404 := by
  have hv : sampleReq.title ≠ "" ∧ sampleReq.author ≠ "" ∧ sampleReq.year ≠ 0 :=
    ⟨by decide, by decide, by decide⟩
  have h1 := (update_changed_200 sampleDB "1" 1 sampleReq (by decide) hv).1
    ⟨sampleBook, List.mem_singleton.mpr rfl, rfl, Or.inr (Or.inr (by decide))⟩
  have h2 := (update_changed_200 sampleDB "99" 99 sampleReq (by decide) hv).2
    (fun r hr hrid => by
      rcases List.mem_singleton.mp hr with rfl
      exact absurd hrid (by decide))
  exact ⟨h1.1, h1.2, h2⟩

/-- C6: an update whose parsed path id matches no row answers 404 and
leaves the store exactly as it was, so in particular no row is
inserted. -/
theorem update_missing_404_unchanged (db : DBState) (s : String) (id : Int)
    (ub : Book) (hA : Atoi s = some id)
    (hv : ub.title ≠ "" ∧ ub.author ≠ "" ∧ ub.year ≠ 0)
    (habs : ∀ r ∈ db.rows, r.id ≠ id) :
    (UpdateBook db s (some ub)).status = 404 ∧
    (UpdateBook db s (some ub)).db = db := by
  have hb : ¬(ub.title = "" ∨ ub.author = "" ∨ ub.year = 0) := by
    push_neg
    exact hv
  have hnil : db.rows.filter (fun b => b.id == id &&
      !(b.title == ub.title && b.author == ub.author && b.year == ub.year)) = [] := by
    rw [List.filter_eq_nil_iff]
    intro a ha hbe
    exact habs a ha (beq_iff_eq.mp (Bool.and_eq_true_iff.mp hbe).1)
  have hmap : db.rows.map (fun b => if b.id == id then
      { b with title := ub.title, author := ub.author, year := ub.year } else b) =
      db.rows :=
    map_eq_self_of_fixed _ _ (fun r hr =>
      if_neg (by simp [beq_eq_false_iff_ne.mpr (habs r hr)]))
  have h0 : (List.nil : List Book).length = 0 := rfl
  rw [UpdateBook_eq_of_valid db s id ub hA hb, hnil, if_pos h0, hmap]
  exact ⟨rfl, rfl⟩

/-- C6 witness: update of the absent id 99 on the one-row store. -/
theorem update_missing_404_unchanged_witness :
    (UpdateBook sampleDB "99" (some sampleReq)).status = 404 ∧
    (UpdateBook sampleDB "99" (some sampleReq)).db = sampleDB :=
  update_missing_404_unchanged sampleDB "99" 99 sampleReq (by decide)
    ⟨by decide, by decide, by decide⟩
    (fun r hr => by
      rcases List.mem_singleton.mp hr with rfl
      decide)

theorem filter_ne_after_update (l : List Book) (n : Int) (ub : Book) :
    (l.map (fun b => if b.id == n then
        { b with title := ub.title, author := ub.author, year := ub.year }
      else b)).filter (fun b => !(b.id == n)) =
      l.filter (fun b => !(b.id == n)) := by
  induction l with
  | nil => rfl
  | cons hd tl ih =>
    by_cases h : hd.id = n
    · simp [List.map_cons, List.filter_cons, h]
      simpa using ih
    · simp [List.map_cons, List.filter_cons, h]
      simpa using ih

/-- C7: once a delete of an id has answered 200, a second delete of
the same id answers 404 and leaves the store state it found
untouched. -/
theorem delete_twice_404 (db : DBState) (s : String) (id : Int)
    (hA : Atoi s = some id)
    (h200 : (DeleteBook db s).status = 200) :
    (DeleteBook (DeleteBook db s).db s).status = 404 ∧
    (DeleteBook (DeleteBook db s).db s).db = (DeleteBook db s).db := by
  have hdb1 : (DeleteBook db s).db =
      { rows := db.rows.filter (fun b => !(b.id == id)), nextId := db.nextId } := by
    rw [DeleteBook_eq_of_atoi_some db s id hA]
    split <;> rfl
  have hfilter :
      (db.rows.filter (fun b => !(b.id == id))).filter (fun b => !(b.id == id)) =
      db.rows.filter (fun b => !(b.id == id)) :=
    filter_eq_self_of_all _ _ (fun a ha => (List.mem_filter.mp ha).2)
  rw [hdb1, DeleteBook_eq_of_atoi_some _ s id hA]
  dsimp only
  rw [hfilter, if_pos (Nat.sub_self _)]
  exact ⟨rfl, rfl⟩

/-- C7 witness: deleting id 1 twice on the one-row store. -/
theorem delete_twice_404_witness :
    (DeleteBook (DeleteBook sampleDB "1").db "1").status = 404 ∧
    (DeleteBook (DeleteBook sampleDB "1").db "1").db = (DeleteBook sampleDB "1").db :=
  delete_twice_404 sampleDB "1" 1 (by decide) (by decide)

/-- C9: a path id parsing to zero or a negative integer passes the
integer-validity check; get-by-id, update and delete then answer 404
(row lookup miss), not 400. -/
theorem nonpositive_ids_are_valid (db : DBState) (s : String) (id : Int)
    (ub : Book) (hA : Atoi s = some id) (hle : id ≤ 0)
    (habs : ∀ r ∈ db.rows, r.id ≠ id)
    (hv : ub.title ≠ "" ∧ ub.author ≠ "" ∧ ub.year ≠ 0) :
    (GetBook db s).status = 404 ∧
    (UpdateBook db s (some ub)).status = 404 ∧
    (DeleteBook db s).status = 404 := by
  have hb : ¬(ub.title = "" ∨ ub.author = "" ∨ ub.year = 0) := by
    push_neg
    exact hv
  refine ⟨?_, ?_, ?_⟩
  · have hfind : db.rows.find? (fun b => b.id == id) = none := by
      rw [List.find?_eq_none]
      intro a ha hbe
      exact habs a ha (beq_iff_eq.mp hbe)
    rw [GetBook_eq_of_atoi_some db s id hA, hfind]
  · have hnil : db.rows.filter (fun b => b.id == id &&
        !(b.title == ub.title && b.author == ub.author && b.year == ub.year)) = [] := by
      rw [List.filter_eq_nil_iff]
      intro a ha hbe
      exact habs a ha (beq_iff_eq.mp (Bool.and_eq_true_iff.mp hbe).1)
    have h0 : (List.nil : List Book).length = 0 := rfl
    rw [UpdateBook_eq_of_valid db s id ub hA hb, hnil, if_pos h0]
  · have hall : db.rows.filter (fun b => !(b.id == id)) = db.rows :=
      filter_eq_self_of_all _ _ (fun a ha => by
        simp [beq_eq_false_iff_ne.mpr (habs a ha)])
    rw [DeleteBook_eq_of_atoi_some db s id hA, hall, if_pos (Nat.sub_self _)]

/-- C9 witness: ids "0" and "-3" parse, and all three handlers answer
404 for the absent id -3 on the one-row store. -/
theorem nonpositive_ids_are_valid_witness :
    Atoi "0" = some 0 ∧ Atoi "-3" = some (-3) ∧
    (GetBook sampleDB "-3").status = 404 ∧
    (UpdateBook sampleDB "-3" (some sampleReq)).status = 404 ∧
    (DeleteBook sampleDB "-3").status = 404 := by
  have h := nonpositive_ids_are_valid sampleDB "-3" (-3) sampleReq (by decide)
    (by decide)
    (fun r hr => by
      rcases List.mem_singleton.mp hr with rfl
      decide)
    ⟨by decide, by decide, by decide⟩
  exact ⟨by decide, by decide, h.1, h.2.1, h.2.2⟩

/-- C10: update and delete with a parsed path id leave every row with
a different id unchanged, and get-by-id and list leave the whole
store unchanged. -/
theorem frame_condition (db : DBState) (s : String) (n : Int)
    (body : Option Book) (hA : Atoi s = some n) :
    (UpdateBook db s body).db.rows.filter (fun b => !(b.id == n)) =
      db.rows.filter (fun b => !(b.id == n)) ∧
    (DeleteBook db s).db.rows.filter (fun b => !(b.id == n)) =
      db.rows.filter (fun b => !(b.id == n)) ∧
    (GetBook db s).db = db ∧ (GetBooks db).db = db := by
  refine ⟨?_, ?_, GetBook_db_eq db s, rfl⟩
  · cases body with
    | none => rw [UpdateBook_eq_of_body_none db s n hA]
    | some ub =>
      by_cases hb : ub.title = "" ∨ ub.author = "" ∨ ub.year = 0
      · rw [UpdateBook_eq_of_invalid db s n ub hA hb]
      · rw [UpdateBook_eq_of_valid db s n ub hA hb]
        split <;>
        · dsimp only
          exact filter_ne_after_update db.rows n ub
  · rw [DeleteBook_eq_of_atoi_some db s n hA]
    split <;>
    · dsimp only
      exact filter_eq_self_of_all _ _ (fun a ha => (List.mem_filter.mp ha).2)

/-- C10 witness at the one-row store with id 1 and a valid body. -/
theorem frame_condition_witness :
    (UpdateBook sampleDB "1" (some sampleReq)).db.rows.filter (fun b => !(b.id == 1)) =
      sampleDB.rows.filter (fun b => !(b.id == 1)) ∧
    (DeleteBook sampleDB "1").db.rows.filter (fun b => !(b.id == 1)) =
      sampleDB.rows.filter (fun b => !(b.id == 1)) ∧
    (GetBook sampleDB "1").db = sampleDB ∧ (GetBooks sampleDB).db = sampleDB :=
  frame_condition sampleDB "1" 1 (some sampleReq) (by decide)

end BookApi
